import Mathlib

/-!
Verification of the client-side offline-resilient synchronization layer of the
graha-fitness gym management app (source file `src/unnamed/part_000`).

The embedding models:
* a small JSON value type with the `JSON.stringify` serialization used by the
  duplicate check in `addToOfflineQueue`;
* the persisted offline queue (`getOfflineQueue` / `saveOfflineQueue` /
  `addToOfflineQueue`);
* the `api` request wrapper with its try/catch outcome classification
  (401 / 403 / non-ok status / success, and the thrown-error catch block that
  decides between re-raising and enqueuing + returning the "queued" sentinel);
* the `syncOfflineData` drain pass (atomic functional model, plus a small-step
  interleaving model used to analyse two overlapping drain invocations);
* the `updateSyncIndicator` DOM indicator update.

Machine/browser effects that the claims do not touch (the `Authorization`
header, `logout()` clearing sessionStorage, `alert(...)` popups, DOM animation)
are noted in comments but not threaded through the state.
-/

/-- JSON values, as produced by `JSON.parse` / consumed by `JSON.stringify`.
Object fields are kept in insertion order, matching JavaScript object key
order, which is what `JSON.stringify` serializes. -/
inductive Json where
  | null : Json
  | bool (b : Bool) : Json
  | num (n : Int) : Json
  | str (s : String) : Json
  | arr (elems : List Json) : Json
  | obj (fields : List (String × Json)) : Json

/-- Escape one character the way `JSON.stringify` does for the characters
that can occur in this app's payloads (quote, backslash, newline, tab, CR). -/
def jsonEscapeChar (c : Char) : String :=
  if c = '"' then "\\\""
  else if c = '\\' then "\\\\"
  else if c = '\n' then "\\n"
  else if c = '\t' then "\\t"
  else if c = '\r' then "\\r"
  else String.singleton c

/-- Escape a character list, front to back. -/
def jsonEscapeList : List Char → String
  | [] => ""
  | c :: cs => jsonEscapeChar c ++ jsonEscapeList cs

/-- `JSON.stringify` string escaping over the string's characters. -/
def jsonEscape (s : String) : String :=
  jsonEscapeList s.data

mutual
/-- `JSON.stringify` on the modelled JSON values: field order of objects is
the (insertion) order of the field list, exactly as in JavaScript. -/
def Json.stringify : Json → String
  | .null => "null"
  | .bool true => "true"
  | .bool false => "false"
  | .num n => toString n
  | .str s => "\"" ++ jsonEscape s ++ "\""
  | .arr es => "[" ++ Json.stringifyElems es ++ "]"
  | .obj fs => "\x7b" ++ Json.stringifyFields fs ++ "\x7d"

/-- Comma-separated serialization of array elements. -/
def Json.stringifyElems : List Json → String
  | [] => ""
  | [j] => j.stringify
  | j :: rest => j.stringify ++ "," ++ Json.stringifyElems rest

/-- Comma-separated serialization of object fields (`"key":value`). -/
def Json.stringifyFields : List (String × Json) → String
  | [] => ""
  | [(k, j)] => "\"" ++ jsonEscape k ++ "\":" ++ j.stringify
  | (k, j) :: rest =>
      "\"" ++ jsonEscape k ++ "\":" ++ j.stringify ++ "," ++
        Json.stringifyFields rest
end

/-- JavaScript truthiness of a JSON value (`null`, `false`, `0`, and `""` are
falsy; every array and object, including empty ones, is truthy). -/
def Json.truthy : Json → Bool
  | .null => false
  | .bool b => b
  | .num n => n != 0
  | .str s => s != ""
  | .arr _ => true
  | .obj _ => true

/-- Whether a JSON value is an array (a "list" at the JS level). -/
def Json.isArr : Json → Bool
  | .arr _ => true
  | _ => false

/-- Property lookup on a JSON object (`j.key`); `none` models `undefined`.
Field lists built by the app have distinct keys, so first-match lookup agrees
with JS property access. -/
def Json.lookup : Json → String → Option Json
  | .obj fs, k => (fs.find? (fun p => p.1 = k)).map Prod.snd
  | _, _ => none

/-- One pending mutating operation, as pushed by `addToOfflineQueue`:
`\x7b id: Date.now(), endpoint, options, timestamp: new Date().toISOString() \x7d`. -/
structure QueuedRequest where
  id : Nat
  endpoint : String
  options : Json
  timestamp : String

/-- `getOfflineQueue` reading raw storage, for the fail-soft analysis.
The stored value under `gf_offline_queue` is classified as:
`none` = key absent (`getItem` returns `null`; `JSON.parse(null)` yields the
JS value `null`, and `null || []` gives `[]`); `some none` = a stored string
that is not valid JSON (`JSON.parse` throws, the `catch` returns `[]`);
`some (some j)` = a stored string parsing to the JSON value `j`, in which case
the code returns `j || []`, i.e. `j` itself when `j` is truthy and `[]`
otherwise. -/
def getOfflineQueueRaw : Option (Option Json) → Json
  | none => Json.arr []
  | some none => Json.arr []
  | some (some j) => if j.truthy then j else Json.arr []

/-- The duplicate test used by `addToOfflineQueue`:
`item.endpoint === endpoint && JSON.stringify(item.options) === JSON.stringify(options)`. -/
def sameRequest (endpoint : String) (options : Json) (item : QueuedRequest) : Bool :=
  item.endpoint == endpoint && item.options.stringify == options.stringify

/-- `addToOfflineQueue(endpoint, options)`: no-op when a structurally identical
entry (same endpoint, same `JSON.stringify` of the options) is already queued,
otherwise append a new entry. `now` stands for `Date.now()` and `ts` for
`new Date().toISOString()`; `saveOfflineQueue`'s indicator refresh is handled
where the full state is threaded. -/
def addToOfflineQueue (now : Nat) (ts : String) (queue : List QueuedRequest)
    (endpoint : String) (options : Json) : List QueuedRequest :=
  if queue.any (sameRequest endpoint options) then queue
  else queue ++ [⟨now, endpoint, options, ts⟩]

/-! ## The `api` request wrapper -/

/-- Outcome of the single `fetch` performed by `api` (with its `AbortController`
timeout race): a response arrived, or the 60s timeout fired (`AbortError`), or
the transport failed (`fetch` rejects with a `TypeError` whose message is
`'Failed to fetch'`). -/
inductive FetchOutcome where
  | resp (status : Nat) (body : Option Json)
  | timeout
  | netfail

/-- `res.ok`: status in the 200–299 range. -/
def resOk (status : Nat) : Bool :=
  decide (200 ≤ status ∧ status < 300)

/-- The error message built on a non-ok response:
`const err = await res.json().catch(() => (\x7b detail: 'Request failed' \x7d));`
`throw new Error(err.detail || 'API error');` — `body = none` models a
response body that `res.json()` cannot parse.  Non-string truthy `detail`
values would be string-coerced by `new Error`; the app's backend sends string
details, so only string details are modelled. -/
def errMessage (body : Option Json) : String :=
  match body with
  | none => "Request failed"
  | some b =>
      match b.lookup "detail" with
      | some (Json.str d) => if d == "" then "API error" else d
      | _ => "API error"

/-- What the try block of `api` does with a fetch outcome.
`thrown isTimeout msg` is an error raised inside the try block and caught by
the catch block (`err.name === 'AbortError'` reflected in `isTimeout`,
`err.message` in `msg`): the 401 throw (`'Session expired'`, after
`logout()`), the 403 throw (`'Forbidden'`, after the denial `alert`), the
non-ok-status throw (`err.detail || 'API error'`), the timeout abort, and the
transport's `'Failed to fetch'` error.
`success body` is the final `return res.json()` statement being reached: that
`return` hands back the parse promise *without awaiting it*, so when the
promise rejects (`body = none`, a 2xx response whose body cannot be parsed)
the rejection is adopted after the try/catch has been exited — it bypasses
the catch block entirely and propagates straight to the caller. -/
inductive TryOutcome where
  | success (body : Option Json)
  | thrown (isTimeout : Bool) (msg : String)

/-- The try-block of `api` over one fetch outcome. -/
def apiTry : FetchOutcome → TryOutcome
  | .resp status body =>
      if status == 401 then .thrown false "Session expired"
      else if status == 403 then .thrown false "Forbidden"
      else if !resOk status then .thrown false (errMessage body)
      else .success body
  | .timeout => .thrown true "The operation was aborted"
  | .netfail => .thrown false "Failed to fetch"

/-- Result of one `api` call as seen by the caller: the parsed success payload,
the sentinel `\x7b status: 'queued', message \x7d` object, or a raised error
carrying `err.message`. -/
inductive ApiResult where
  | ok (payload : Json)
  | queued (message : String)
  | error (message : String)

/-- Whether an `api` result is the queued sentinel. -/
def ApiResult.isQueued : ApiResult → Bool
  | .queued _ => true
  | _ => false

/-- Whether an `api` result is a raised error (a failure propagated to the
caller). -/
def ApiResult.isError : ApiResult → Bool
  | .error _ => true
  | _ => false

/-- `['POST', 'PUT', 'DELETE'].includes(options.method)`; an absent or
non-string `method` property (e.g. the `\x7b\x7d` options of a GET) is not
included. -/
def isMutation (options : Json) : Bool :=
  match options.lookup "method" with
  | some (Json.str m) => m == "POST" || m == "PUT" || m == "DELETE"
  | _ => false

/-- The catch-block condition of `api`:
`isTimeout || !navigator.onLine || err.message === 'Failed to fetch'`. -/
def connCaught (onLine : Bool) (isTimeout : Bool) (msg : String) : Bool :=
  isTimeout || !onLine || msg == "Failed to fetch"

/-- Outcome-level connectivity-failure classification, exactly as the code
decides it: the attempt threw *inside* the try block (so the catch block saw
it), and the thrown error is the timeout abort, or the browser reports
offline, or the transport's `'Failed to fetch'` error.  A `success` outcome —
including the 2xx unparseable-body rejection, which bypasses the catch — is
never classified here. -/
def connectivityFailure (onLine : Bool) (outcome : FetchOutcome) : Bool :=
  match apiTry outcome with
  | .success _ => false
  | .thrown isTimeout msg => connCaught onLine isTimeout msg

/-- `api(endpoint, options, skipQueue)` over one fetch outcome, threading the
persisted offline queue.  `onLine` is `navigator.onLine` at catch time, `now`
and `ts` feed `addToOfflineQueue`.  On an error thrown inside the try block,
when the catch-block connectivity test passes and the call is a mutation with
`skipQueue` false, the attempt is enqueued and the `'queued'` sentinel is
returned; every other caught error is re-raised (`throw err`).  A rejection
of the returned `res.json()` promise (2xx, unparseable body) bypasses the
catch block: it propagates to the caller as a raised `SyntaxError` and never
touches the queue. -/
def api (onLine : Bool) (outcome : FetchOutcome) (now : Nat) (ts : String)
    (endpoint : String) (options : Json) (skipQueue : Bool)
    (queue : List QueuedRequest) : ApiResult × List QueuedRequest :=
  match apiTry outcome with
  | .success (some b) => (.ok b, queue)
  | .success none => (.error "Unexpected end of JSON input", queue)
  | .thrown isTimeout msg =>
      if connCaught onLine isTimeout msg && (isMutation options && !skipQueue) then
        (.queued "Request timed out/offline: Data will sync when stable.",
         addToOfflineQueue now ts queue endpoint options)
      else (.error msg, queue)

/-! ## Sync indicator and drain pass -/

/-- DOM state of the `#syncIndicator` element and the `#btnSyncNow` button:
whether the `syncing` / `online` / `offline` classes are set, the
`.sync-text` content, and the button's `disabled` / `hidden` state. -/
structure IndicatorState where
  syncing : Bool
  onlineClass : Bool
  text : String
  btnDisabled : Bool
  btnHidden : Bool

/-- `updateSyncIndicator()`: recompute the indicator from `navigator.onLine`
and the current queue.  It toggles the `online`/`offline` classes and the
text/button, and never touches the `syncing` class. -/
def updateSyncIndicator (onLine : Bool) (queue : List QueuedRequest)
    (ind : IndicatorState) : IndicatorState :=
  if onLine then
    { ind with
      onlineClass := true,
      text := if queue.length > 0 then toString queue.length ++ " Pending" else "Online",
      btnHidden := queue.length == 0,
      btnDisabled := false }
  else
    { ind with onlineClass := false, text := "Offline", btnHidden := true }

/-- Client state threaded through the sync engine: the persisted queue, the
indicator DOM state, the currently active nav item (`.nav-item.active`,
`none` when no page is active), and a counter of `navigate(...)` refresh
invocations (standing for the re-render side effect). -/
structure SyncState where
  queue : List QueuedRequest
  indicator : IndicatorState
  activeView : Option String
  refreshCount : Nat

/-- `saveOfflineQueue(queue)`: persist the list and refresh the indicator. -/
def saveOfflineQueue (onLine : Bool) (queue : List QueuedRequest)
    (st : SyncState) : SyncState :=
  { st with queue := queue,
            indicator := updateSyncIndicator onLine queue st.indicator }

/-- One replay during the drain: `await api(item.endpoint, item.options, true)`.
With `skipQueue = true` the queue argument of `api` is never read or changed,
so the replay result depends only on the item and the network; `now`/`ts` are
likewise unused and passed as dummies. -/
def replayResult (onLine : Bool) (net : QueuedRequest → FetchOutcome)
    (item : QueuedRequest) : ApiResult :=
  (api onLine (net item) 0 "" item.endpoint item.options true []).1

/-- Whether a replay counted as a success in the drain loop: `api` returned
(anything) rather than threw.  A thrown error (`ApiResult.error`) sends the
item to `remaining`; any returned value increments `successCount`. -/
def replayOk (onLine : Bool) (net : QueuedRequest → FetchOutcome)
    (item : QueuedRequest) : Bool :=
  match replayResult onLine net item with
  | .error _ => false
  | _ => true

/-- The `for (const item of queue)` loop of `syncOfflineData`, returning
`(remaining, successCount, attempts)` where `attempts` records every replayed
item in the order the loop issued it.  The loop awaits each replay before
starting the next, so the list order of `attempts` is the temporal order of
the network calls. -/
def drainLoop (onLine : Bool) (net : QueuedRequest → FetchOutcome) :
    List QueuedRequest → List QueuedRequest × Nat × List QueuedRequest
  | [] => ([], 0, [])
  | item :: rest =>
      let r := drainLoop onLine net rest
      if replayOk onLine net item then (r.1, r.2.1 + 1, item :: r.2.2)
      else (item :: r.1, r.2.1, item :: r.2.2)

/-- `syncOfflineData()` as one atomic pass (no other task interleaves), also
returning the replay trace.  Mirrors the source: early return when the queue
is empty or the browser is offline; set the `syncing` class, `'Syncing...'`
text and disable the button; run the loop; `saveOfflineQueue(remaining)`;
`navigate` the active page when at least one item succeeded; remove the
`syncing` class and `updateSyncIndicator()`. -/
def syncOfflineData (onLine : Bool) (net : QueuedRequest → FetchOutcome)
    (st : SyncState) : SyncState × List QueuedRequest :=
  if st.queue.length == 0 || !onLine then (st, [])
  else
    let ind1 := { st.indicator with syncing := true, text := "Syncing...",
                                    btnDisabled := true }
    let r := drainLoop onLine net st.queue
    let remaining := r.1
    let successCount := r.2.1
    let attempts := r.2.2
    let st1 := saveOfflineQueue onLine remaining { st with indicator := ind1 }
    let st2 := if successCount > 0 && st1.activeView.isSome then
                 { st1 with refreshCount := st1.refreshCount + 1 }
               else st1
    let ind2 := { st2.indicator with syncing := false }
    let st3 := { st2 with indicator := updateSyncIndicator onLine remaining ind2 }
    (st3, attempts)

/-! ## Small-step model of `syncOfflineData`

`syncOfflineData` is an `async` function whose only suspension points are the
`await api(...)` calls in the replay loop; everything between two awaits runs
atomically on the single JS thread.  The source has no in-progress flag: the
`online` event listener and the `#btnSyncNow` click handler both call
`syncOfflineData()` directly, so a second invocation can start while the first
is suspended in an `await`.  The step model makes each atomic block one step
so that two overlapping invocations can be interleaved.  Only the observables
the double-drain claim mentions are tracked: the persisted queue and the
replay events sent to the network (indicator updates are omitted). -/

/-- Progress of one `syncOfflineData()` invocation:
`idle` = called but the synchronous prefix (snapshot read, empty/offline
check, indicator set) has not run yet; `running pending remaining succ` =
suspended in the loop with `pending` items still to replay; `finished` =
returned. -/
inductive DrainPhase where
  | idle
  | running (pending remaining : List QueuedRequest) (succ : Nat)
  | finished

/-- One atomic block of `syncOfflineData` against the shared persisted queue
`stored`; returns the new phase, the new stored queue, and the replay events
of this block.  From `idle`: read the snapshot (`getOfflineQueue()`), return
early if empty or offline.  From `running`: the block that resumes after one
`await api(item...)` settles records that item's outcome; when it was the last
item, the same block runs `saveOfflineQueue(remaining)` (the code after the
loop is synchronous with the last await's resumption). -/
def stepDrain (onLine : Bool) (net : QueuedRequest → FetchOutcome) :
    DrainPhase → List QueuedRequest →
    DrainPhase × List QueuedRequest × List QueuedRequest
  | .idle, stored =>
      if stored.length == 0 || !onLine then (.finished, stored, [])
      else (.running stored [] 0, stored, [])
  | .running [] remaining _, _ => (.finished, remaining, [])
  | .running (item :: rest) remaining succ, stored =>
      let ok := replayOk onLine net item
      let remaining' := if ok then remaining else remaining ++ [item]
      let succ' := if ok then succ + 1 else succ
      if rest.isEmpty then (.finished, remaining', [item])
      else (.running rest remaining' succ', stored, [item])
  | .finished, stored => (.finished, stored, [])

/-- Two overlapping `syncOfflineData()` invocations (`a` triggered first, `b`
triggered while `a` may still be in flight) sharing the persisted queue, with
the cumulative replay trace. -/
structure TwoDrains where
  stored : List QueuedRequest
  a : DrainPhase
  b : DrainPhase
  trace : List QueuedRequest

/-- Run one atomic block of invocation `a` (tid = true) or `b` (tid = false). -/
def stepThread (onLine : Bool) (net : QueuedRequest → FetchOutcome)
    (tid : Bool) (w : TwoDrains) : TwoDrains :=
  if tid then
    let r := stepDrain onLine net w.a w.stored
    { w with a := r.1, stored := r.2.1, trace := w.trace ++ r.2.2 }
  else
    let r := stepDrain onLine net w.b w.stored
    { w with b := r.1, stored := r.2.1, trace := w.trace ++ r.2.2 }

/-- Run a schedule (list of thread choices) over the two invocations.  Each
schedule corresponds to one way the JS event loop can interleave the two
calls' atomic blocks. -/
def runSched (onLine : Bool) (net : QueuedRequest → FetchOutcome) :
    List Bool → TwoDrains → TwoDrains
  | [], w => w
  | tid :: rest, w => runSched onLine net rest (stepThread onLine net tid w)

/-! ## Concrete data used by witnesses and counterexamples -/

/-- Options of a queued `POST` mutation, as captured by `apiPost`. -/
def optPost : Json :=
  Json.obj [("method", Json.str "POST"), ("body", Json.str "null")]

/-- Options of a plain read call: `apiGet` passes `api(path)` with the default
`\x7b\x7d`, so there is no `method` property. -/
def optGet : Json := Json.obj []

/-- A queued check-in request. -/
def chkEntry : QueuedRequest :=
  ⟨1, "/attendance/checkin", optPost, "2026-01-01T00:00:00.000Z"⟩

/-- A network where every request succeeds with a `null` JSON body. -/
def netOk : QueuedRequest → FetchOutcome := fun _ => .resp 200 (some .null)

/-- Three queued entries for the partial-failure scenario. -/
def entryA : QueuedRequest := ⟨1, "/a", optPost, "t1"⟩

/-- Second entry of the partial-failure scenario; its replay will fail. -/
def entryB : QueuedRequest := ⟨2, "/b", optPost, "t2"⟩

/-- Third entry of the partial-failure scenario. -/
def entryC : QueuedRequest := ⟨3, "/c", optPost, "t3"⟩

/-- A network where the replay of `/b` hits a transport failure and every
other request succeeds. -/
def netFailB : QueuedRequest → FetchOutcome := fun item =>
  if item.endpoint == "/b" then .netfail else .resp 200 (some .null)

/-- Indicator in its quiescent online state. -/
def indOnline : IndicatorState :=
  { syncing := false, onlineClass := true, text := "Online",
    btnDisabled := false, btnHidden := true }

/-- Client state holding the three-entry queue with the dashboard active. -/
def st3entries : SyncState :=
  { queue := [entryA, entryB, entryC], indicator := indOnline,
    activeView := some "dashboard", refreshCount := 0 }

/-- Options object `\x7b a: 1, b: 2 \x7d`. -/
def optAB : Json := Json.obj [("a", Json.num 1), ("b", Json.num 2)]

/-- The structurally equal object with the two keys written in the other
order, `\x7b b: 2, a: 1 \x7d`; `JSON.stringify` serializes it differently. -/
def optBA : Json := Json.obj [("b", Json.num 2), ("a", Json.num 1)]

/-! ## Lemmas about the drain loop -/

/-- The drain loop attempts every snapshot entry, in snapshot order. -/
theorem drainLoop_trace (onLine : Bool) (net : QueuedRequest → FetchOutcome)
    (q : List QueuedRequest) : (drainLoop onLine net q).2.2 = q := by
  induction q with
  | nil => rfl
  | cons item rest ih =>
      simp only [drainLoop]
      by_cases h : replayOk onLine net item <;> simp [h, ih]

/-- The drain loop's `remaining` list is the failed entries, in order. -/
theorem drainLoop_remaining (onLine : Bool) (net : QueuedRequest → FetchOutcome)
    (q : List QueuedRequest) :
    (drainLoop onLine net q).1 = q.filter (fun i => !replayOk onLine net i) := by
  induction q with
  | nil => rfl
  | cons item rest ih =>
      simp only [drainLoop, List.filter]
      by_cases h : replayOk onLine net item <;> simp [h, ih]

/-- The drain loop's success counter counts the successful replays. -/
theorem drainLoop_successCount (onLine : Bool) (net : QueuedRequest → FetchOutcome)
    (q : List QueuedRequest) :
    (drainLoop onLine net q).2.1 = q.countP (replayOk onLine net) := by
  induction q with
  | nil => rfl
  | cons item rest ih =>
      simp only [drainLoop, List.countP_cons]
      by_cases h : replayOk onLine net item <;> simp [h, ih]

/-! ## Claim theorems -/

/-- C1: a drain pass while online replays exactly the queued entries in their
queue (enqueue) order — the attempt trace of `syncOfflineData` equals the
queue snapshot — and an enqueue never reorders the queue: it either leaves it
unchanged (duplicate) or appends the new entry at the tail, so a sequence of
offline enqueues builds the queue in enqueue order.  Sequentiality (entry N+1
is not attempted before entry N's outcome is known) is structural: the loop of
`drainLoop` consumes each item's `replayOk` outcome before recursing on the
rest, exactly as the source `await`s each `api` call before the next
iteration. -/
theorem fifo_replay_order :
    (∀ (net : QueuedRequest → FetchOutcome) (st : SyncState),
       (syncOfflineData true net st).2 = st.queue) ∧
    (∀ (now : Nat) (ts : String) (q : List QueuedRequest) (e : String) (o : Json),
       addToOfflineQueue now ts q e o = q ∨
       addToOfflineQueue now ts q e o = q ++ [⟨now, e, o, ts⟩]) := by
  constructor
  · intro net st
    by_cases h : st.queue.length = 0
    · have hq : st.queue = [] := List.length_eq_zero.mp h
      simp [syncOfflineData, hq]
    · simp [syncOfflineData, h, drainLoop_trace]
  · intro now ts q e o
    unfold addToOfflineQueue
    split
    · exact Or.inl rfl
    · exact Or.inr rfl

/-- C9: draining with an empty queue snapshot, or draining while offline,
returns immediately: the whole client state (persisted queue, indicator,
refresh counter) is unchanged and no replay is attempted. -/
theorem empty_or_offline_drain_noop (onLine : Bool)
    (net : QueuedRequest → FetchOutcome) (st : SyncState)
    (h : st.queue = [] ∨ onLine = false) :
    syncOfflineData onLine net st = (st, []) := by
  rcases h with h | h
  · simp [syncOfflineData, h]
  · subst h
    simp [syncOfflineData]

/-- Witness for C9 at a concrete state: draining the three-entry queue while
offline changes nothing. -/
theorem empty_or_offline_drain_noop_witness :
    (st3entries.queue = [] ∨ false = false) ∧
      syncOfflineData false netOk st3entries = (st3entries, []) :=
  ⟨Or.inr rfl,
   empty_or_offline_drain_noop false netOk st3entries (Or.inr rfl)⟩

/-- A freshly built entry matches its own fingerprint. -/
theorem sameRequest_self (n : Nat) (t e : String) (o : Json) :
    sameRequest e o ⟨n, e, o, t⟩ = true := by
  simp [sameRequest]

/-- Enqueue is a no-op when a matching entry is already queued. -/
theorem addToOfflineQueue_dup (n : Nat) (t : String) (q : List QueuedRequest)
    (e : String) (o : Json) (h : q.any (sameRequest e o) = true) :
    addToOfflineQueue n t q e o = q := by
  simp [addToOfflineQueue, h]

/-- Enqueue appends a fresh entry when no matching entry is queued. -/
theorem addToOfflineQueue_new (n : Nat) (t : String) (q : List QueuedRequest)
    (e : String) (o : Json) (h : q.any (sameRequest e o) = false) :
    addToOfflineQueue n t q e o = q ++ [⟨n, e, o, t⟩] := by
  simp [addToOfflineQueue, h]

/-- The fingerprint test only depends on the serialized options. -/
theorem sameRequest_congr (e : String) (o o' : Json)
    (h : o.stringify = o'.stringify) (item : QueuedRequest) :
    sameRequest e o item = sameRequest e o' item := by
  simp [sameRequest, h]

/-- C2: after one online drain pass over a non-empty queue (with some view
active), the persisted queue is exactly the sublist of entries whose replay
failed — `List.filter` keeps the original relative order and considers every
entry, so one entry's failure aborts nothing — and the refresh counter is
incremented exactly when at least one replay succeeded. -/
theorem partial_failure_isolation (net : QueuedRequest → FetchOutcome)
    (st : SyncState) (v : String)
    (hview : st.activeView = some v) (hne : st.queue ≠ []) :
    (syncOfflineData true net st).1.queue
        = st.queue.filter (fun i => !replayOk true net i) ∧
    (syncOfflineData true net st).1.refreshCount
        = st.refreshCount +
            (if 0 < st.queue.countP (replayOk true net) then 1 else 0) := by
  have hlen : ¬ st.queue.length = 0 := by
    simpa [List.length_eq_zero] using hne
  constructor
  · simp only [syncOfflineData, hlen, saveOfflineQueue, drainLoop_remaining]
    simp [hlen]
    split <;> rfl
  · by_cases hs : 0 < st.queue.countP (replayOk true net)
    · simp [syncOfflineData, hlen, saveOfflineQueue, hview,
            drainLoop_successCount, hs]
    · simp [syncOfflineData, hlen, saveOfflineQueue, hview,
            drainLoop_successCount, hs]

/-- Witness for C2 at the three-entry scenario where only `/b`'s replay fails:
after the drain exactly `entryB` is persisted and one refresh was issued. -/
theorem partial_failure_isolation_witness :
    st3entries.activeView = some "dashboard" ∧ st3entries.queue ≠ [] ∧
    (syncOfflineData true netFailB st3entries).1.queue = [entryB] ∧
    (syncOfflineData true netFailB st3entries).1.refreshCount = 1 := by
  have h := partial_failure_isolation netFailB st3entries "dashboard" rfl
    (by simp [st3entries])
  exact ⟨rfl, by simp [st3entries], h.1.trans (by rfl), h.2.trans (by rfl)⟩

/-- C3: enqueue is idempotent on duplicates — enqueuing the same endpoint and
options twice is the same as enqueuing once; starting from a queue with no
matching entry, the double enqueue leaves exactly one matching entry; and the
no-two-identical-entries invariant is preserved by every enqueue. -/
theorem duplicate_enqueue_noop :
    (∀ (n n' : Nat) (t t' : String) (q : List QueuedRequest) (e : String) (o : Json),
       addToOfflineQueue n' t' (addToOfflineQueue n t q e o) e o
         = addToOfflineQueue n t q e o) ∧
    (∀ (n n' : Nat) (t t' : String) (q : List QueuedRequest) (e : String) (o : Json),
       q.countP (sameRequest e o) = 0 →
         (addToOfflineQueue n' t' (addToOfflineQueue n t q e o) e o).countP
             (sameRequest e o) = 1) ∧
    (∀ (n : Nat) (t : String) (q : List QueuedRequest) (e : String) (o : Json),
       q.Pairwise (fun i j =>
         ¬(i.endpoint = j.endpoint ∧ i.options.stringify = j.options.stringify)) →
       (addToOfflineQueue n t q e o).Pairwise (fun i j =>
         ¬(i.endpoint = j.endpoint ∧ i.options.stringify = j.options.stringify))) := by
  refine ⟨?_, ?_, ?_⟩
  · intro n n' t t' q e o
    rcases h : q.any (sameRequest e o) with _ | _
    · rw [addToOfflineQueue_new n t q e o h]
      apply addToOfflineQueue_dup
      simp [sameRequest_self]
    · rw [addToOfflineQueue_dup n t q e o h, addToOfflineQueue_dup n' t' q e o h]
  · intro n n' t t' q e o hz
    have hany : q.any (sameRequest e o) = false := by
      rcases h : q.any (sameRequest e o) with _ | _
      · rfl
      · rcases List.any_eq_true.mp h with ⟨x, hx, hsx⟩
        have := List.countP_eq_zero.mp hz x hx
        simp [hsx] at this
    rw [addToOfflineQueue_new n t q e o hany]
    rw [addToOfflineQueue_dup n' t' _ e o (by simp [sameRequest_self])]
    simp [List.countP_append, hz, sameRequest_self]
  · intro n t q e o hp
    rcases h : q.any (sameRequest e o) with _ | _
    · rw [addToOfflineQueue_new n t q e o h]
      rw [List.pairwise_append]
      refine ⟨hp, List.pairwise_singleton _ _, ?_⟩
      intro i hi j hj
      simp only [List.mem_singleton] at hj
      subst hj
      rintro ⟨hend, hopt⟩
      have hfalse : sameRequest e o i = false := by
        have := List.any_eq_false.mp (by exact h) i hi
        simpa using this
      simp [sameRequest, hend.symm, hopt.symm] at hfalse
      exact absurd hfalse (by simp [hend, hopt])
    · rwa [addToOfflineQueue_dup n t q e o h]

/-- C10: duplicate detection compares the exact `JSON.stringify` serialization
of the options: any second enqueue whose options serialize to the same string
(for the same endpoint) is dropped, while the structurally equal objects
`optAB`/`optBA` — same two properties, written in the other key order — get
different serializations and are both enqueued. -/
theorem dedup_by_exact_serialization :
    (∀ (n n' : Nat) (t t' : String) (q : List QueuedRequest) (e : String)
       (o o' : Json), o.stringify = o'.stringify →
         addToOfflineQueue n' t' (addToOfflineQueue n t q e o) e o'
           = addToOfflineQueue n t q e o) ∧
    (optAB.stringify ≠ optBA.stringify ∧
     optAB.lookup "a" = optBA.lookup "a" ∧ optAB.lookup "b" = optBA.lookup "b" ∧
     (addToOfflineQueue 2 "t2" (addToOfflineQueue 1 "t1" [] "/m" optAB)
        "/m" optBA).length = 2) := by
  constructor
  · intro n n' t t' q e o o' hs
    have hcong : ∀ item, sameRequest e o item = sameRequest e o' item :=
      sameRequest_congr e o o' hs
    rcases h : q.any (sameRequest e o) with _ | _
    · rw [addToOfflineQueue_new n t q e o h]
      apply addToOfflineQueue_dup
      simp [List.any_append, ← hcong, sameRequest_self]
    · rw [addToOfflineQueue_dup n t q e o h]
      apply addToOfflineQueue_dup
      have hfn : sameRequest e o' = sameRequest e o :=
        funext fun item => (hcong item).symm
      rw [hfn]
      exact h
  · refine ⟨by decide, rfl, rfl, rfl⟩

/-- Witness for C3: double-enqueuing a check-in on the empty queue leaves one
matching entry, the second enqueue changes nothing, and a single enqueue keeps
the queue duplicate-free. -/
theorem duplicate_enqueue_noop_witness :
    ([] : List QueuedRequest).countP (sameRequest "/m" optPost) = 0 ∧
    (addToOfflineQueue 2 "t2" (addToOfflineQueue 1 "t1" [] "/m" optPost)
        "/m" optPost).countP (sameRequest "/m" optPost) = 1 ∧
    addToOfflineQueue 2 "t2" (addToOfflineQueue 1 "t1" [] "/m" optPost)
        "/m" optPost = addToOfflineQueue 1 "t1" [] "/m" optPost ∧
    (addToOfflineQueue 1 "t1" [] "/m" optPost).Pairwise (fun i j =>
      ¬(i.endpoint = j.endpoint ∧ i.options.stringify = j.options.stringify)) :=
  ⟨rfl,
   duplicate_enqueue_noop.2.1 1 2 "t1" "t2" [] "/m" optPost rfl,
   duplicate_enqueue_noop.1 1 2 "t1" "t2" [] "/m" optPost,
   duplicate_enqueue_noop.2.2 1 "t1" [] "/m" optPost (List.Pairwise.nil)⟩

/-- Witness for C10: enqueuing the same serialized options twice is dropped. -/
theorem dedup_by_exact_serialization_witness :
    optAB.stringify = optAB.stringify ∧
    addToOfflineQueue 7 "t7" (addToOfflineQueue 6 "t6" [] "/w" optAB)
        "/w" optAB = addToOfflineQueue 6 "t6" [] "/w" optAB :=
  ⟨rfl, dedup_by_exact_serialization.1 6 7 "t6" "t7" [] "/w" optAB optAB rfl⟩

/-- C5: a non-mutating call never touches the offline queue, whatever the
outcome, and every failing outcome propagates to the caller as a failure:
each caught throw — timeout, offline, unreachable transport, or any
response-classified error — is re-raised, and the catch-bypassing rejection
of an unparseable 2xx body also reaches the caller as a failure. -/
theorem read_calls_never_queue (onLine : Bool) (outcome : FetchOutcome)
    (now : Nat) (ts : String) (e : String) (o : Json) (skipQ : Bool)
    (q : List QueuedRequest) (h : isMutation o = false) :
    (api onLine outcome now ts e o skipQ q).2 = q ∧
    (∀ isT msg, apiTry outcome = .thrown isT msg →
       (api onLine outcome now ts e o skipQ q).1 = .error msg) ∧
    (apiTry outcome = .success none →
       (api onLine outcome now ts e o skipQ q).1
         = .error "Unexpected end of JSON input") := by
  cases ho : apiTry outcome with
  | success body =>
      cases body with
      | some b =>
          refine ⟨by simp [api, ho], ?_, ?_⟩
          · intro isT msg hmsg
            exact TryOutcome.noConfusion hmsg
          · intro hmsg
            injection hmsg with hb
            exact Option.noConfusion hb
      | none =>
          refine ⟨by simp [api, ho], ?_, fun _ => by simp [api, ho]⟩
          intro isT msg hmsg
          exact TryOutcome.noConfusion hmsg
  | thrown isT msg =>
      refine ⟨by simp [api, ho, h], ?_, ?_⟩
      · intro isT' msg' hmsg
        injection hmsg with h1 h2
        subst h1
        subst h2
        simp [api, ho, h]
      · intro hmsg
        exact TryOutcome.noConfusion hmsg

/-- Witness for C5: a GET made while offline with an unreachable transport
fails with `'Failed to fetch'` and leaves the (empty) queue empty. -/
theorem read_calls_never_queue_witness :
    isMutation optGet = false ∧
    (api false FetchOutcome.netfail 0 "" "/members" optGet false []).2 = [] ∧
    (api false FetchOutcome.netfail 0 "" "/members" optGet false []).1
      = .error "Failed to fetch" :=
  ⟨rfl,
   (read_calls_never_queue false .netfail 0 "" "/members" optGet false [] rfl).1,
   (read_calls_never_queue false .netfail 0 "" "/members" optGet false [] rfl).2.1
     false "Failed to fetch" rfl⟩

/-- C6: for a mutating call with `skipQueue` false, the result is the queued
sentinel exactly when the attempt threw inside the try block and the
catch-block connectivity test (timeout, or browser offline, or the
`'Failed to fetch'` transport error) passed; in that case the attempt is
enqueued and the sentinel carries the fixed message.  Any other outcome is a
success payload or a propagated failure — including the rejection of an
unparseable 2xx body, which bypasses the catch block and so is never
enqueued — so connectivity-failure is the only class that does not propagate
as a failure. -/
theorem mutating_connectivity_failure_queues (onLine : Bool)
    (outcome : FetchOutcome) (now : Nat) (ts : String) (e : String) (o : Json)
    (q : List QueuedRequest) (h : isMutation o = true) :
    ((api onLine outcome now ts e o false q).1.isQueued
        = connectivityFailure onLine outcome) ∧
    (connectivityFailure onLine outcome = true →
       api onLine outcome now ts e o false q
         = (.queued "Request timed out/offline: Data will sync when stable.",
            addToOfflineQueue now ts q e o)) := by
  cases ho : apiTry outcome with
  | success body =>
      cases body with
      | some b =>
          refine ⟨?_, ?_⟩
          · simp [api, ho, connectivityFailure, ApiResult.isQueued]
          · intro hcf
            simp [connectivityFailure, ho] at hcf
      | none =>
          refine ⟨?_, ?_⟩
          · simp [api, ho, connectivityFailure, ApiResult.isQueued]
          · intro hcf
            simp [connectivityFailure, ho] at hcf
  | thrown isT msg =>
      by_cases hc : connCaught onLine isT msg = true
      · refine ⟨?_, fun _ => ?_⟩
        · simp [api, ho, connectivityFailure, ApiResult.isQueued, h, hc]
        · simp [api, ho, h, hc]
      · have hc' : connCaught onLine isT msg = false := by
          simpa using hc
        refine ⟨?_, ?_⟩
        · simp [api, ho, connectivityFailure, ApiResult.isQueued, h, hc']
        · intro hcf
          simp [connectivityFailure, ho, hc'] at hcf

/-- Witness for C6: an offline POST hitting the unreachable transport is
enqueued and returns the sentinel. -/
theorem mutating_connectivity_failure_queues_witness :
    isMutation optPost = true ∧
    connectivityFailure false FetchOutcome.netfail = true ∧
    api false FetchOutcome.netfail 5 "ts" "/checkin" optPost false []
      = (.queued "Request timed out/offline: Data will sync when stable.",
         addToOfflineQueue 5 "ts" [] "/checkin" optPost) :=
  ⟨rfl, rfl,
   (mutating_connectivity_failure_queues false .netfail 5 "ts" "/checkin"
      optPost [] rfl).2 rfl⟩

/-- Counterexample to C7 as stated: a mutating call whose response is a plain
application error (status 500 with a server `detail` message) is nevertheless
enqueued and answered with the queued sentinel when the browser reports
offline at the moment the thrown error reaches the catch block — the
catch-block test `isTimeout || !navigator.onLine || err.message === 'Failed
to fetch'` fires on `!navigator.onLine` even though a response was received. -/
theorem application_error_offline_enqueued_counterexample :
    (api false
        (FetchOutcome.resp 500 (some (Json.obj [("detail", Json.str "Invalid data")])))
        5 "t" "/members" optPost false []).1.isQueued = true ∧
    (api false
        (FetchOutcome.resp 500 (some (Json.obj [("detail", Json.str "Invalid data")])))
        5 "t" "/members" optPost false []).2.length = 1 :=
  ⟨rfl, rfl⟩

/-- C7 amended: for every call whose response is received and classified as an
application error (non-success status other than 401/403), the call fails to
the caller with the server-supplied `detail` message if present (else a
generic message) and is never enqueued — provided the browser reports online
when the error is handled and the message is not the literal string
`'Failed to fetch'`, since otherwise the catch-block connectivity test
reclassifies the mutating call and enqueues it. -/
theorem application_error_fails_without_enqueue (status : Nat)
    (body : Option Json) (now : Nat) (ts : String) (e : String) (o : Json)
    (q : List QueuedRequest)
    (h401 : status ≠ 401) (h403 : status ≠ 403) (hok : resOk status = false)
    (hmsg : errMessage body ≠ "Failed to fetch") :
    api true (.resp status body) now ts e o false q
      = (.error (errMessage body), q) ∧
    (∀ d : String, d ≠ "" →
       errMessage (some (Json.obj [("detail", Json.str d)])) = d) ∧
    errMessage none = "Request failed" ∧
    errMessage (some (Json.obj [])) = "API error" := by
  refine ⟨?_, ?_, rfl, rfl⟩
  · have htry : apiTry (.resp status body) = .thrown false (errMessage body) := by
      simp [apiTry, h401, h403, hok]
    have hcc : connCaught true false (errMessage body) = false := by
      simp [connCaught, hmsg]
    simp [api, htry, hcc]
  · intro d hd
    simp [errMessage, Json.lookup, hd]

/-- Witness for C7 (amended): a 422 with `detail: 'Name required'` received
while the browser is online fails with that message and enqueues nothing. -/
theorem application_error_fails_without_enqueue_witness :
    (422 : Nat) ≠ 401 ∧ (422 : Nat) ≠ 403 ∧ resOk 422 = false ∧
    errMessage (some (Json.obj [("detail", Json.str "Name required")]))
      ≠ "Failed to fetch" ∧
    api true (.resp 422 (some (Json.obj [("detail", Json.str "Name required")])))
        0 "t" "/members" optPost false []
      = (.error "Name required", []) :=
  ⟨by decide, by decide, rfl, by decide,
   (application_error_fails_without_enqueue 422
      (some (Json.obj [("detail", Json.str "Name required")]))
      0 "t" "/members" optPost [] (by decide) (by decide) rfl (by decide)).1.trans
     (by rfl)⟩

/-- Counterexample to C8 as stated: a stored string that is valid JSON but not
an array — here the string `5` — is returned as-is by `getOfflineQueue` (the
code computes `JSON.parse(stored) || []`, and `5` is truthy), so the load does
not always yield a list. -/
theorem corrupt_queue_load_counterexample :
    (getOfflineQueueRaw (some (some (Json.num 5)))).isArr = false :=
  rfl

/-- C8 amended: loading the persisted queue is fail-soft — an absent value, a
string `JSON.parse` rejects, or a value parsing to a JS-falsy result all load
as the empty queue, and any stored array (in particular everything
`saveOfflineQueue` writes) is returned unchanged; only a truthy non-array
stored value is returned without being coerced to a list. -/
theorem queue_load_fail_soft :
    getOfflineQueueRaw none = Json.arr [] ∧
    getOfflineQueueRaw (some none) = Json.arr [] ∧
    (∀ j : Json, j.truthy = false →
       getOfflineQueueRaw (some (some j)) = Json.arr []) ∧
    (∀ es : List Json, getOfflineQueueRaw (some (some (Json.arr es))) = Json.arr es) := by
  refine ⟨rfl, rfl, ?_, ?_⟩
  · intro j hj
    simp [getOfflineQueueRaw, hj]
  · intro es
    simp [getOfflineQueueRaw, Json.truthy]

/-- Witness for C8 (amended): a stored `null` (falsy after parse) loads as the
empty queue. -/
theorem queue_load_fail_soft_witness :
    Json.truthy Json.null = false ∧
    getOfflineQueueRaw (some (some Json.null)) = Json.arr [] :=
  ⟨rfl, queue_load_fail_soft.2.2.1 Json.null rfl⟩

/-- C4 at the failing interleaving: `syncOfflineData` has no in-progress
guard, so when a second invocation starts (e.g. the `online` event fires
again) while the first is suspended in its replay `await`, the second reads
the still-unsaved persisted queue and replays the same entry again.  With one
queued check-in and a network that accepts everything: a single trigger
replays the entry once, but the interleaving first-trigger / second-trigger /
first-replay / second-replay sends the entry to the network twice — the
second trigger is not a no-op, contradicting the claim. -/
theorem double_drain_replays_twice :
    (runSched true netOk [true, true]
       { stored := [chkEntry], a := .idle, b := .idle, trace := [] }).trace
      = [chkEntry] ∧
    (runSched true netOk [true, false, true, false]
       { stored := [chkEntry], a := .idle, b := .idle, trace := [] }).trace
      = [chkEntry, chkEntry] :=
  ⟨rfl, rfl⟩
